import Mathlib

/-!
Verification of the UESynth streaming session manager
(`src/client/uesynth/__init__.py`, class `AsyncUESynthClient`).

The embedding models the client state (`running`, `request_queue`,
`response_handlers`, `latest_responses`, the gRPC channel) and the
operations `_send_action`, `_response_handler` (receive loop),
`_request_handler` (send loop), `connect`, `get_latest_frame` and
`disconnect` as pure Lean functions.  Python dicts are modelled as
association lists observed through `dlookup`; the asyncio queue is a
`List (Option ActionRequest)` whose `none` element is the shutdown
sentinel (`None` in the source).  Opaque protobuf payloads are
represented by `Nat`.  Callbacks are modelled by an identifier plus a
flag saying whether invoking them raises an exception.
-/

/-- Outbound envelope: an `ActionRequest` protobuf message.  Per the spec's
data model it carries a `request_id` (stamped by `_send_action`) and an
opaque one-of payload, represented here by a `Nat`. -/
structure ActionRequest where
  request_id : String
  payload : Nat
deriving Repr, DecidableEq

/-- Discriminator of an inbound response: which one-of field of the
`ActionResponse` is set.  These are the five fields tested by the
`HasField` chain in `_response_handler` (lines 109-124). -/
inductive RespKind
  | image
  | command
  | camera_transform
  | object_transform
  | objects_list
deriving Repr, DecidableEq

/-- The string key under which `_response_handler` caches a response of the
given kind in `self.latest_responses` (lines 109-124). -/
def kindKey : RespKind → String
  | RespKind.image => "image"
  | RespKind.command => "command"
  | RespKind.camera_transform => "camera_transform"
  | RespKind.object_transform => "object_transform"
  | RespKind.objects_list => "objects_list"

/-- Inbound envelope: an `ActionResponse` with a `request_id`, exactly one
populated one-of field (its `kind`), and that field's payload. -/
structure StreamResponse where
  request_id : String
  kind : RespKind
  payload : Nat
deriving Repr, DecidableEq

/-- A caller-supplied response callback.  `cid` identifies the callback in
the event trace; `faults` says whether invoking it raises an exception. -/
structure Callback where
  cid : Nat
  faults : Bool
deriving Repr, DecidableEq

/-- Lookup in a Python-dict-modelling association list: the most recently
inserted binding for a key wins. -/
def dlookup {α : Type} : List (String × α) → String → Option α
  | [], _ => none
  | (k, v) :: rest, key => if k = key then some v else dlookup rest key

/-- Dict assignment `d[key] = v`: the new binding shadows any earlier one
under `dlookup`. -/
def dinsert {α : Type} (d : List (String × α)) (key : String) (v : α) :
    List (String × α) :=
  (key, v) :: d

/-- Dict deletion `del d[key]`: removes every binding for `key`. -/
def derase {α : Type} (d : List (String × α)) (key : String) :
    List (String × α) :=
  d.filter (fun p => !(decide (p.1 = key)))

/-- State of an `AsyncUESynthClient` (fields of `__init__`, lines 29-43),
plus a counter of `channel.close()` calls so double-closing is
observable.  `request_queue = none` models the pre-`connect` state where
`self.request_queue is None`; a `none` queue element is the `None`
shutdown sentinel. -/
structure ClientState where
  running : Bool
  channel_created : Bool
  request_queue : Option (List (Option ActionRequest))
  response_handlers : List (String × Callback)
  latest_responses : List (String × Nat)
  close_calls : Nat
deriving Repr, DecidableEq

/-- `__init__` (lines 23-48): no channel, no queue, empty registry and
cache, not running. -/
def mkClient : ClientState :=
  { running := false
    channel_created := false
    request_queue := none
    response_handlers := []
    latest_responses := []
    close_calls := 0 }

/-- `connect` plus `_start_streaming` (lines 50-69): creates the channel,
sets `running = True`, creates an empty request queue, and starts the two
loop tasks (modelled separately by `processInbound` and the send-loop
functions below). -/
def connect (s : ClientState) : ClientState :=
  { s with channel_created := true, running := true, request_queue := some [] }

/-- Event emitted by `_send_action`, in program order: registering the
callback in `response_handlers`, then putting the envelope on the queue. -/
inductive TxEvent
  | register (rid : String)
  | enqueue (rid : String)
deriving Repr, DecidableEq

/-- The body of `_send_action` (lines 142-165): generate a fresh id
(`fresh` stands for the `str(uuid.uuid4())` draw), stamp it onto the
envelope, register the callback if provided, enqueue the envelope, and
return the id.  Returns `none` when `self.request_queue` is `None`
(before `connect`), where the Python attribute access would raise.
The trace records that registration happens before enqueueing. -/
def sendAction (s : ClientState) (fresh : String) (payload : Nat)
    (callback : Option Callback) :
    Option (ClientState × String × List TxEvent) :=
  match s.request_queue with
  | none => none
  | some q =>
    let req : ActionRequest := { request_id := fresh, payload := payload }
    match callback with
    | some cb =>
      some ({ s with
              response_handlers := dinsert s.response_handlers fresh cb
              request_queue := some (q ++ [some req]) },
            fresh,
            [TxEvent.register fresh, TxEvent.enqueue fresh])
    | none =>
      some ({ s with request_queue := some (q ++ [some req]) },
            fresh,
            [TxEvent.enqueue fresh])

/-- A sequence of `_send_action` calls without callbacks: `ids` is the
uuid4 supply (call number `i` draws `ids i`), `payloads` the submitted
payloads.  Returns the final state and the returned request ids. -/
def submitAll (ids : Nat → String) : ClientState → Nat → List Nat →
    Option (ClientState × List String)
  | s, _, [] => some (s, [])
  | s, i, p :: ps =>
    match sendAction s (ids i) p none with
    | none => none
    | some (s1, rid, _) =>
      match submitAll ids s1 (i + 1) ps with
      | none => none
      | some (s2, rids) => some (s2, rid :: rids)

/-- The envelopes a sequence of `_send_action` calls stamps and enqueues:
call `k` of the sequence carries id `ids (i + k)` and the `k`-th payload. -/
def stamped (ids : Nat → String) : Nat → List Nat → List ActionRequest
  | _, [] => []
  | i, p :: ps => { request_id := ids i, payload := p } :: stamped ids (i + 1) ps

/-- Request ids returned by a sequence of `_send_action` calls. -/
def stampedIds (ids : Nat → String) : Nat → List Nat → List String
  | _, [] => []
  | i, _ :: ps => ids i :: stampedIds ids (i + 1) ps

/-- How the send loop `_request_handler` (lines 71-95) terminated.
`exited` means the `while` was left and the `finally` block ran
`stream.done_writing()`; `blocked` means the loop is still waiting on
`queue.get` (timing out and retrying). -/
inductive SendExit
  | blocked
  | exited
deriving Repr, DecidableEq

/-- The send loop `_request_handler` resumed at its `while self.running`
check, with `running` frozen at the given value (no concurrent mutation
during this run).  Returns the envelopes written to the stream in order,
the queue contents left unread, and how the loop ended.  A `none` queue
element is the shutdown sentinel (`if request is None: break`, line 80);
an empty queue means `wait_for(..., timeout=1.0)` times out and the loop
`continue`s back to the check. -/
def loopFromCheck : Bool → List (Option ActionRequest) →
    List ActionRequest × List (Option ActionRequest) × SendExit
  | false, q => ([], q, SendExit.exited)
  | true, [] => ([], [], SendExit.blocked)
  | true, none :: rest => ([], rest, SendExit.exited)
  | true, some r :: rest =>
    let t := loopFromCheck true rest
    (r :: t.1, t.2)

/-- The send loop resumed while suspended inside `queue.get()` — the
`while self.running` check of the current iteration already passed, so
the head of the queue is consumed (and written, if it is an envelope)
before `running` is consulted again. -/
def loopFromGet (running : Bool) (q : List (Option ActionRequest)) :
    List ActionRequest × List (Option ActionRequest) × SendExit :=
  match q with
  | [] => if running then ([], [], SendExit.blocked) else ([], [], SendExit.exited)
  | none :: rest => ([], rest, SendExit.exited)
  | some r :: rest =>
    let t := loopFromCheck running rest
    (r :: t.1, t.2)

/-- Event emitted by the receive loop while processing one inbound
envelope: the cache write, then (possibly) the callback invocation. -/
inductive RxEvent
  | cacheUpdate (key : String) (payload : Nat)
  | invoke (cid : Nat) (rid : String) (payload : Nat)
deriving Repr, DecidableEq

/-- One iteration body of `_response_handler` (lines 107-134) on an
inbound envelope: first the cache entry for the envelope's kind is
overwritten (lines 108-124), then, if `request_id` is registered, the
callback is invoked and the entry deleted (lines 127-134).  The `Bool`
result is `true` when the iteration completed normally and `false` when
the callback raised — in the source that exception is caught by the
`except` of the loop body (line 136), which prints and `break`s; note
that a raising callback skips the `del`, so its entry stays registered. -/
def dispatchOne (s : ClientState) (r : StreamResponse) :
    ClientState × List RxEvent × Bool :=
  let s1 := { s with
              latest_responses :=
                dinsert s.latest_responses (kindKey r.kind) r.payload }
  match dlookup s1.response_handlers r.request_id with
  | none => (s1, [RxEvent.cacheUpdate (kindKey r.kind) r.payload], true)
  | some cb =>
    if cb.faults then
      (s1,
       [RxEvent.cacheUpdate (kindKey r.kind) r.payload,
        RxEvent.invoke cb.cid r.request_id r.payload],
       false)
    else
      ({ s1 with response_handlers := derase s1.response_handlers r.request_id },
       [RxEvent.cacheUpdate (kindKey r.kind) r.payload,
        RxEvent.invoke cb.cid r.request_id r.payload],
       true)

/-- The receive loop `_response_handler` (lines 97-140) run over a list of
inbound envelopes delivered in arrival order.  Each iteration first
re-checks `while self.running`; a callback exception `break`s the loop,
after which the `finally` block sets `running = False` (line 140).
An exhausted list leaves the loop blocked in `stream.read()`. -/
def processInbound : ClientState → List StreamResponse → ClientState × List RxEvent
  | s, [] => (s, [])
  | s, r :: rs =>
    if s.running then
      let t := dispatchOne s r
      if t.2.2 then
        let rest := processInbound t.1 rs
        (rest.1, t.2.1 ++ rest.2)
      else
        ({ t.1 with running := false }, t.2.1)
    else (s, [])

/-- `get_latest_frame` (lines 167-180): returns the cached latest
image-kind response, or `none` if no image response has arrived.  The
numpy reshape of the pixel buffer is downstream decoding outside this
core; the cached payload stands for the returned array. -/
def getLatestFrame (s : ClientState) : Option Nat :=
  dlookup s.latest_responses "image"

/-- The state mutations of ONE `disconnect` call (lines 182-205), in
program order: set `running = False`; if the queue exists, put the
`None` sentinel (after everything already queued); await the two loop
tasks; if the channel attribute is set, call `channel.close()` (counted
in `close_calls`; the attribute is never cleared).  This function covers
the schedules in which awaiting the loop tasks raises nothing (tasks
still active within the grace period, timing out, or already finished);
awaiting a task that an EARLIER `disconnect` already cancelled instead
re-raises `CancelledError`, which the `except TimeoutError` does not
catch — that repeated-call behaviour is modelled by the task-aware
`disconnectSession` below. -/
def disconnect (s : ClientState) : ClientState :=
  let s1 := { s with running := false }
  let s2 :=
    match s1.request_queue with
    | some q => { s1 with request_queue := some (q ++ [none]) }
    | none => s1
  if s2.channel_created then { s2 with close_calls := s2.close_calls + 1 } else s2

/-- Payload of the most recent envelope of the given cache key in a
delivery sequence, `none` when no envelope of that kind occurs
(last-write-wins, exactly the fold the cache performs). -/
def lastPayload (key : String) (ms : List StreamResponse) : Option Nat :=
  ms.foldl (fun acc m => if kindKey m.kind = key then some m.payload else acc) none

/-- All callbacks currently registered in the client complete normally
when invoked. -/
def handlersOk (s : ClientState) : Prop :=
  ∀ p ∈ s.response_handlers, p.2.faults = false

instance (s : ClientState) : Decidable (handlersOk s) := by
  unfold handlersOk
  infer_instance

/-- Number of `invoke` events for a given request id in a trace. -/
def invokeCount (evs : List RxEvent) (rid : String) : Nat :=
  evs.countP (fun e =>
    match e with
    | RxEvent.invoke _ r _ => decide (r = rid)
    | _ => false)

/-- Status of one of the two asyncio loop tasks created by
`_start_streaming` (lines 65-66): still running, completed normally, or
cancelled (by a timed-out `wait_for` in a previous `disconnect`). -/
inductive TaskState
  | active
  | finished
  | cancelled
deriving Repr, DecidableEq

/-- A client together with the state of its two loop tasks; `none` models
the pre-`connect` state where the task attributes are `None`. -/
structure SessionState where
  client : ClientState
  response_task : Option TaskState
  request_task : Option TaskState
deriving Repr, DecidableEq

/-- A freshly connected session: both loop tasks running. -/
def connectedSession : SessionState :=
  { client := connect mkClient
    response_task := some TaskState.active
    request_task := some TaskState.active }

/-- One `await asyncio.wait_for(task, timeout=2.0)` guarded by
`except TimeoutError: task.cancel()` (lines 191-201).  A missing task is
skipped by the `if`; a finished task returns immediately; an active task
either completes within the grace (`finishes = true`) or the `wait_for`
raises `TimeoutError`, which is caught, and the task is cancelled.
Awaiting a task that is ALREADY cancelled (by an earlier `disconnect`)
re-raises `CancelledError`, which the `except TimeoutError` does not
catch: the second component is `false` when the exception escapes. -/
def awaitTask : Option TaskState → Bool → Option TaskState × Bool
  | none, _ => (none, true)
  | some TaskState.finished, _ => (some TaskState.finished, true)
  | some TaskState.cancelled, _ => (some TaskState.cancelled, false)
  | some TaskState.active, finishes =>
    if finishes then (some TaskState.finished, true)
    else (some TaskState.cancelled, true)

/-- `disconnect` (lines 182-205) over the task-aware session state,
covering repeated calls.  `respFinishes`/`reqFinishes` say whether a
still-active task completes within the 2-second grace.  In program
order: clear `running`; push the sentinel behind the queued envelopes;
await `response_task` — if that await raises `CancelledError` (task
cancelled by an earlier call) the exception escapes `disconnect`
(second component `false`) and neither the `request_task` await nor
`channel.close()` runs; otherwise await `request_task` likewise; only
when both awaits return is `channel.close()` called. -/
def disconnectSession (st : SessionState) (respFinishes reqFinishes : Bool) :
    SessionState × Bool :=
  let c1 := { st.client with running := false }
  let c2 :=
    match c1.request_queue with
    | some q => { c1 with request_queue := some (q ++ [none]) }
    | none => c1
  let r := awaitTask st.response_task respFinishes
  if r.2 then
    let t := awaitTask st.request_task reqFinishes
    if t.2 then
      let c3 :=
        if c2.channel_created then { c2 with close_calls := c2.close_calls + 1 }
        else c2
      ({ client := c3, response_task := r.1, request_task := t.1 }, true)
    else
      ({ client := c2, response_task := r.1, request_task := t.1 }, false)
  else
    ({ client := c2, response_task := r.1, request_task := st.request_task }, false)

/-! ## Dictionary lemmas -/

theorem dlookup_dinsert_self {α : Type} (d : List (String × α)) (k : String) (v : α) :
    dlookup (dinsert d k v) k = some v := by
  simp [dinsert, dlookup]

theorem dlookup_dinsert_ne {α : Type} (d : List (String × α)) (k key : String) (v : α)
    (h : k ≠ key) : dlookup (dinsert d k v) key = dlookup d key := by
  simp [dinsert, dlookup, h]

theorem dlookup_derase_self {α : Type} (d : List (String × α)) (k : String) :
    dlookup (derase d k) k = none := by
  induction d with
  | nil => rfl
  | cons p rest ih =>
    by_cases h : p.1 = k
    · simpa [derase, List.filter_cons, h] using ih
    · simpa [derase, List.filter_cons, h, dlookup] using ih

theorem dlookup_derase_ne {α : Type} (d : List (String × α)) (k key : String)
    (h : key ≠ k) : dlookup (derase d k) key = dlookup d key := by
  induction d with
  | nil => rfl
  | cons p rest ih =>
    obtain ⟨pk, pv⟩ := p
    have ih2 := ih
    simp only [derase] at ih2
    by_cases hpkey : pk = key
    · have hpk : ¬pk = k := by
        rw [hpkey]
        exact h
      simp [derase, List.filter_cons, hpk, dlookup, hpkey, h, Ne.symm h]
    · by_cases hpk : pk = k
      · simp [derase, List.filter_cons, hpk, dlookup, hpkey, h, Ne.symm h, ih2]
      · simp [derase, List.filter_cons, hpk, dlookup, hpkey, h, Ne.symm h, ih2]

theorem dlookup_mem {α : Type} (d : List (String × α)) (k : String) (v : α)
    (h : dlookup d k = some v) : (k, v) ∈ d := by
  induction d with
  | nil => simp [dlookup] at h
  | cons p rest ih =>
    obtain ⟨pk, pv⟩ := p
    by_cases hp : pk = k
    · simp [dlookup, hp] at h
      simp [List.mem_cons, hp, h]
    · simp [dlookup, hp] at h
      exact List.mem_cons_of_mem _ (ih h)

theorem derase_subset {α : Type} (d : List (String × α)) (k : String) :
    ∀ p ∈ derase d k, p ∈ d := by
  intro p hp
  exact List.mem_of_mem_filter hp

/-! ## Send-side lemmas -/

theorem loopFromCheck_map_some (l : List ActionRequest) :
    loopFromCheck true (l.map some) = (l, [], SendExit.blocked) := by
  induction l with
  | nil => rfl
  | cons r rest ih => simp [loopFromCheck, ih]

theorem submitAll_spec (ids : Nat → String) (ps : List Nat) :
    ∀ (s : ClientState) (q : List (Option ActionRequest)) (i : Nat),
      s.request_queue = some q →
      submitAll ids s i ps =
        some ({ s with request_queue := some (q ++ (stamped ids i ps).map some) },
              stampedIds ids i ps) := by
  induction ps with
  | nil =>
    intro s q i hq
    cases s
    simp_all [submitAll, stamped, stampedIds]
  | cons p ps ih =>
    intro s q i hq
    have step :
        sendAction s (ids i) p none =
          some ({ s with
                  request_queue :=
                    some (q ++ [some { request_id := ids i, payload := p }]) },
                ids i, [TxEvent.enqueue (ids i)]) := by
      simp [sendAction, hq]
    have ihs := ih { s with
                     request_queue :=
                       some (q ++ [some { request_id := ids i, payload := p }]) }
                   (q ++ [some { request_id := ids i, payload := p }]) (i + 1) rfl
    simp [submitAll, step, ihs, stamped, stampedIds]

/-! ## Claim theorems: send side -/

/-- C1.  For every sequence of `_send_action` calls made while the session
is `Running` (and any envelopes already queued), the send loop
`_request_handler` writes the resulting envelopes to the stream in exactly
submission order: the written list equals the queued list — FIFO, nothing
reordered, coalesced, or skipped. -/
theorem send_loop_fifo (ids : Nat → String) (i : Nat) (payloads : List Nat)
    (s : ClientState) (q0 : List ActionRequest)
    (_hrun : s.running = true)
    (hq : s.request_queue = some (q0.map some)) :
    ∃ s1,
      submitAll ids s i payloads = some (s1, stampedIds ids i payloads) ∧
      s1.request_queue = some ((q0 ++ stamped ids i payloads).map some) ∧
      (loopFromCheck true ((q0 ++ stamped ids i payloads).map some)).1 =
        q0 ++ stamped ids i payloads := by
  refine ⟨{ s with
            request_queue :=
              some (q0.map some ++ (stamped ids i payloads).map some) },
          submitAll_spec ids payloads s (q0.map some) i hq, ?_, ?_⟩
  · simp
  · rw [loopFromCheck_map_some]

/-- Witness for C1: three submissions on a freshly connected client are
written in submission order. -/
theorem send_loop_fifo_witness :
    ∃ s1,
      submitAll (fun n => toString n) (connect mkClient) 0 [10, 20, 30] =
        some (s1, stampedIds (fun n => toString n) 0 [10, 20, 30]) ∧
      s1.request_queue =
        some ((([] : List ActionRequest) ++
               stamped (fun n => toString n) 0 [10, 20, 30]).map some) ∧
      (loopFromCheck true ((([] : List ActionRequest) ++
               stamped (fun n => toString n) 0 [10, 20, 30]).map some)).1 =
        ([] : List ActionRequest) ++ stamped (fun n => toString n) 0 [10, 20, 30] :=
  send_loop_fifo (fun n => toString n) 0 [10, 20, 30] (connect mkClient) []
    rfl rfl

/-- C10.  In every `_send_action` call that provides a callback, the
callback is registered in `response_handlers` strictly before the
envelope is placed on the outbound queue: the emitted trace is literally
`[register, enqueue]`, and in the resulting state the enqueued envelope
coexists with its registered callback. -/
theorem register_precedes_enqueue (s : ClientState)
    (q : List (Option ActionRequest)) (fresh : String) (p : Nat)
    (cb : Callback) (hq : s.request_queue = some q) :
    ∃ s1,
      sendAction s fresh p (some cb) =
        some (s1, fresh, [TxEvent.register fresh, TxEvent.enqueue fresh]) ∧
      dlookup s1.response_handlers fresh = some cb ∧
      s1.request_queue = some (q ++ [some { request_id := fresh, payload := p }]) := by
  refine ⟨{ s with
            response_handlers := dinsert s.response_handlers fresh cb
            request_queue :=
              some (q ++ [some { request_id := fresh, payload := p }]) },
          ?_, ?_, rfl⟩
  · simp [sendAction, hq]
  · exact dlookup_dinsert_self _ _ _

/-- Witness for C10 on a freshly connected client. -/
theorem register_precedes_enqueue_witness :
    ∃ s1,
      sendAction (connect mkClient) "abc" 7 (some { cid := 0, faults := false }) =
        some (s1, "abc", [TxEvent.register "abc", TxEvent.enqueue "abc"]) ∧
      dlookup s1.response_handlers "abc" = some { cid := 0, faults := false } ∧
      s1.request_queue = some [some { request_id := "abc", payload := 7 }] :=
  register_precedes_enqueue (connect mkClient) [] "abc" 7
    { cid := 0, faults := false } rfl

/-- Helper: the queue and flag mutations of `disconnect` when the queue
exists: `running` is cleared and the sentinel is appended after all
already-queued items, whatever the channel state. -/
theorem disconnect_queue (s : ClientState) (q : List (Option ActionRequest))
    (hq : s.request_queue = some q) :
    (disconnect s).running = false ∧
    (disconnect s).request_queue = some (q ++ [none]) := by
  by_cases hc : s.channel_created = true <;> simp [disconnect, hq, hc]

/-- Counterexample to C4.  On a connected-then-disconnected client,
`_send_action` does not fail with a "not connected" error: it succeeds,
enqueues the envelope behind the shutdown sentinel, and returns the id.
(No `NotConnectedError` even exists in the source, and `_send_action`
never consults the connection state.) -/
theorem submit_after_close_counterexample :
    (disconnect (connect mkClient)).running = false ∧
    sendAction (disconnect (connect mkClient)) "id1" 7 none ≠ none ∧
    sendAction (disconnect (connect mkClient)) "id1" 7 none =
      some ({ disconnect (connect mkClient) with
              request_queue :=
                some [none, some { request_id := "id1", payload := 7 }] },
            "id1", [TxEvent.enqueue "id1"]) := by
  refine ⟨rfl, ?_, rfl⟩
  decide

/-- C4 as amended.  A `_send_action` call made after `disconnect` does not
fail fast: it succeeds, appends the envelope to the still-existing queue
(behind the sentinel), and returns the generated id; the envelope is
never written, because the send loop, re-checking `running = false`,
has exited. -/
theorem submit_after_close_enqueues (s : ClientState)
    (q : List (Option ActionRequest)) (fresh : String) (p : Nat)
    (hq : s.request_queue = some q) :
    (disconnect s).running = false ∧
    ∃ s1,
      sendAction (disconnect s) fresh p none =
        some (s1, fresh, [TxEvent.enqueue fresh]) ∧
      s1.request_queue =
        some ((q ++ [none]) ++ [some { request_id := fresh, payload := p }]) ∧
      s1.running = false ∧
      (loopFromCheck s1.running
        ((q ++ [none]) ++ [some { request_id := fresh, payload := p }])).1 = [] := by
  obtain ⟨hrun, hq2⟩ := disconnect_queue s q hq
  refine ⟨hrun, { disconnect s with
                  request_queue :=
                    some ((q ++ [none]) ++
                          [some { request_id := fresh, payload := p }]) },
          ?_, rfl, hrun, ?_⟩
  · simp [sendAction, hq2]
  · rw [hrun]
    simp [loopFromCheck]

/-- Witness for the amended C4 on a freshly connected client. -/
theorem submit_after_close_enqueues_witness :
    (disconnect (connect mkClient)).running = false ∧
    ∃ s1,
      sendAction (disconnect (connect mkClient)) "id9" 3 none =
        some (s1, "id9", [TxEvent.enqueue "id9"]) ∧
      s1.request_queue =
        some ((([] : List (Option ActionRequest)) ++ [none]) ++
              [some { request_id := "id9", payload := 3 }]) ∧
      s1.running = false ∧
      (loopFromCheck s1.running
        ((([] : List (Option ActionRequest)) ++ [none]) ++
         [some { request_id := "id9", payload := 3 }])).1 = [] :=
  submit_after_close_enqueues (connect mkClient) [] "id9" 3 rfl

/-- Counterexample to C5.  A client is disconnected while envelopes `r1`
and `r2` sit in the outbound queue and the send loop is suspended in
`queue.get()`.  `disconnect` does append the sentinel after both, but it
clears `running` first, so the resumed loop writes only `r1`, then exits
at the `while self.running` check and runs `done_writing` — `r2`, queued
before `disconnect`, is never written. -/
theorem drain_counterexample :
    (disconnect { connect mkClient with
                  request_queue :=
                    some [some { request_id := "r1", payload := 1 },
                          some { request_id := "r2", payload := 2 }] }).request_queue =
      some [some { request_id := "r1", payload := 1 },
            some { request_id := "r2", payload := 2 }, none] ∧
    (disconnect { connect mkClient with
                  request_queue :=
                    some [some { request_id := "r1", payload := 1 },
                          some { request_id := "r2", payload := 2 }] }).running = false ∧
    loopFromGet false
      [some { request_id := "r1", payload := 1 },
       some { request_id := "r2", payload := 2 }, none] =
      ([{ request_id := "r1", payload := 1 }],
       [some { request_id := "r2", payload := 2 }, none], SendExit.exited) ∧
    { request_id := "r2", payload := 2 } ∉
      [({ request_id := "r1", payload := 1 } : ActionRequest)] := by
  refine ⟨rfl, rfl, rfl, ?_⟩
  decide

/-- C5 as amended.  `disconnect` clears `running` and only then pushes the
sentinel after the already-queued envelopes; because the send loop
re-checks `running` after each iteration, the loop resumed inside
`queue.get()` writes at most the one envelope whose dequeue is already in
flight before it exits and performs `done_writing` — the remaining queued
envelopes are not flushed. -/
theorem drain_after_disconnect (s : ClientState)
    (q : List (Option ActionRequest)) (hq : s.request_queue = some q) :
    (disconnect s).running = false ∧
    (disconnect s).request_queue = some (q ++ [none]) ∧
    (loopFromGet false (q ++ [none])).1.length ≤ 1 ∧
    (loopFromGet false (q ++ [none])).2.2 = SendExit.exited := by
  obtain ⟨hrun, hq2⟩ := disconnect_queue s q hq
  refine ⟨hrun, hq2, ?_, ?_⟩ <;>
    cases q with
    | nil => simp [loopFromGet]
    | cons x rest =>
      cases x with
      | none => simp [loopFromGet]
      | some r => simp [loopFromGet, loopFromCheck]

/-- Witness for the amended C5 at a queue holding two envelopes. -/
theorem drain_after_disconnect_witness :
    (disconnect { connect mkClient with
                  request_queue :=
                    some [some { request_id := "a", payload := 1 },
                          some { request_id := "b", payload := 2 }] }).running = false ∧
    (disconnect { connect mkClient with
                  request_queue :=
                    some [some { request_id := "a", payload := 1 },
                          some { request_id := "b", payload := 2 }] }).request_queue =
      some ([some { request_id := "a", payload := 1 },
             some { request_id := "b", payload := 2 }] ++ [none]) ∧
    (loopFromGet false ([some { request_id := "a", payload := 1 },
             some { request_id := "b", payload := 2 }] ++ [none])).1.length ≤ 1 ∧
    (loopFromGet false ([some { request_id := "a", payload := 1 },
             some { request_id := "b", payload := 2 }] ++ [none])).2.2 =
      SendExit.exited :=
  drain_after_disconnect
    { connect mkClient with
      request_queue :=
        some [some { request_id := "a", payload := 1 },
              some { request_id := "b", payload := 2 }] }
    [some { request_id := "a", payload := 1 },
     some { request_id := "b", payload := 2 }] rfl

/-- Counterexample to C9.  `disconnect` is not idempotent in any schedule.
If both loop tasks completed normally, the second call succeeds but
closes the channel a second time (`close_calls` goes from 1 to 2) and
pushes a second sentinel, so the state differs from the state after the
first call.  If the first call's 2-second grace timed out on the receive
task (`respFinishes = false`, the read-never-resolves drain case), the
first call still completes — cancelling the task — but the second call's
await of that cancelled task raises `CancelledError` (only
`TimeoutError` is caught): the second call errors (`false`) and
`channel.close()` is never reached, so `close_calls` stays at 1. -/
theorem disconnect_second_call_counterexample :
    (disconnectSession connectedSession true true).2 = true ∧
    (disconnectSession connectedSession true true).1.client.close_calls = 1 ∧
    (disconnectSession (disconnectSession connectedSession true true).1 true true).2 = true ∧
    (disconnectSession (disconnectSession connectedSession true true).1
        true true).1.client.close_calls = 2 ∧
    (disconnectSession (disconnectSession connectedSession true true).1 true true).1 ≠
      (disconnectSession connectedSession true true).1 ∧
    (disconnectSession connectedSession false true).2 = true ∧
    (disconnectSession connectedSession false true).1.response_task =
      some TaskState.cancelled ∧
    (disconnectSession (disconnectSession connectedSession false true).1 true true).2 = false ∧
    (disconnectSession (disconnectSession connectedSession false true).1
        true true).1.client.close_calls = 1 := by
  decide

/-- C9 as amended.  `disconnect` is neither idempotent nor unconditionally
error-free on a second call; which failure occurs depends on the
schedule.  (1) If both loop tasks are still active and complete within
the 2-second grace, the first call succeeds and a second call also
raises no error, leaves the session not running with registry and cache
untouched — but calls `channel.close()` a second time and pushes a
second sentinel, so the state differs from after the first call.
(2) A first call whose receive-task wait times out still completes, but
leaves that task cancelled.  (3) From any state whose receive task was
cancelled by an earlier call, `disconnect` clears `running` and pushes
the sentinel, then raises `CancelledError` out of the line-193 await
(only `TimeoutError` is caught), never reaching `channel.close()`. -/
theorem disconnect_twice_schedules :
    (∀ (st : SessionState) (q : List (Option ActionRequest)),
      st.client.request_queue = some q → st.client.channel_created = true →
      st.response_task = some TaskState.active →
      st.request_task = some TaskState.active →
      (disconnectSession st true true).2 = true ∧
      (disconnectSession (disconnectSession st true true).1 true true).2 = true ∧
      (disconnectSession (disconnectSession st true true).1
          true true).1.client.running = false ∧
      (disconnectSession (disconnectSession st true true).1
          true true).1.client.latest_responses = st.client.latest_responses ∧
      (disconnectSession (disconnectSession st true true).1
          true true).1.client.response_handlers = st.client.response_handlers ∧
      (disconnectSession (disconnectSession st true true).1
          true true).1.client.close_calls = st.client.close_calls + 2 ∧
      (disconnectSession (disconnectSession st true true).1
          true true).1.client.request_queue = some ((q ++ [none]) ++ [none])) ∧
    (∀ st : SessionState,
      st.response_task = some TaskState.active →
      st.request_task = some TaskState.active →
      (disconnectSession st false true).2 = true ∧
      (disconnectSession st false true).1.response_task =
        some TaskState.cancelled) ∧
    (∀ (st : SessionState) (q : List (Option ActionRequest)) (b1 b2 : Bool),
      st.client.request_queue = some q →
      st.response_task = some TaskState.cancelled →
      (disconnectSession st b1 b2).2 = false ∧
      (disconnectSession st b1 b2).1.client.close_calls = st.client.close_calls ∧
      (disconnectSession st b1 b2).1.client.running = false ∧
      (disconnectSession st b1 b2).1.client.request_queue = some (q ++ [none])) := by
  refine ⟨?_, ?_, ?_⟩
  · intro st q hq hc hrt hqt
    obtain ⟨c, rt, qt⟩ := st
    simp only at hq hc hrt hqt
    subst hrt
    subst hqt
    simp [disconnectSession, awaitTask, hq, hc]
  · intro st hrt hqt
    obtain ⟨c, rt, qt⟩ := st
    simp only at hrt hqt
    subst hrt
    subst hqt
    cases hq : c.request_queue <;> simp [disconnectSession, awaitTask, hq]
  · intro st q b1 b2 hq hrt
    obtain ⟨c, rt, qt⟩ := st
    simp only at hq hrt
    subst hrt
    simp [disconnectSession, awaitTask, hq]

/-- Witness for the amended C9: the three schedules at the freshly
connected session (and, for the cancelled-task part, at the session a
timed-out first call leaves behind). -/
theorem disconnect_twice_schedules_witness :
    ((disconnectSession connectedSession true true).2 = true ∧
      (disconnectSession (disconnectSession connectedSession true true).1 true true).2 = true ∧
      (disconnectSession (disconnectSession connectedSession true true).1
          true true).1.client.running = false ∧
      (disconnectSession (disconnectSession connectedSession true true).1
          true true).1.client.latest_responses = connectedSession.client.latest_responses ∧
      (disconnectSession (disconnectSession connectedSession true true).1
          true true).1.client.response_handlers = connectedSession.client.response_handlers ∧
      (disconnectSession (disconnectSession connectedSession true true).1
          true true).1.client.close_calls = connectedSession.client.close_calls + 2 ∧
      (disconnectSession (disconnectSession connectedSession true true).1
          true true).1.client.request_queue =
        some ((([] : List (Option ActionRequest)) ++ [none]) ++ [none])) ∧
    ((disconnectSession connectedSession false true).2 = true ∧
      (disconnectSession connectedSession false true).1.response_task =
        some TaskState.cancelled) ∧
    ((disconnectSession (disconnectSession connectedSession false true).1 true true).2 = false ∧
      (disconnectSession (disconnectSession connectedSession false true).1
          true true).1.client.close_calls =
        (disconnectSession connectedSession false true).1.client.close_calls ∧
      (disconnectSession (disconnectSession connectedSession false true).1
          true true).1.client.running = false ∧
      (disconnectSession (disconnectSession connectedSession false true).1
          true true).1.client.request_queue = some ([none] ++ [none])) :=
  ⟨disconnect_twice_schedules.1 connectedSession [] rfl rfl rfl rfl,
   disconnect_twice_schedules.2.1 connectedSession rfl rfl,
   disconnect_twice_schedules.2.2
     (disconnectSession connectedSession false true).1 [none] true true
     (by decide) (by decide)⟩

/-- Helper: every id in `stampedIds ids i ps` is drawn from the supply at
an index at least `i`. -/
theorem mem_stampedIds (ids : Nat → String) (ps : List Nat) :
    ∀ (i : Nat) (r : String), r ∈ stampedIds ids i ps → ∃ k, i ≤ k ∧ r = ids k := by
  induction ps with
  | nil =>
    intro i r hr
    simp [stampedIds] at hr
  | cons p ps ih =>
    intro i r hr
    simp only [stampedIds, List.mem_cons] at hr
    cases hr with
    | inl h => exact ⟨i, le_refl i, h⟩
    | inr h =>
      obtain ⟨k, hk, hrk⟩ := ih (i + 1) r h
      exact ⟨k, Nat.le_of_succ_le hk, hrk⟩

/-- Helper: an injective id supply yields pairwise-distinct request ids. -/
theorem stampedIds_nodup (ids : Nat → String) (hinj : Function.Injective ids)
    (ps : List Nat) : ∀ i : Nat, (stampedIds ids i ps).Nodup := by
  induction ps with
  | nil =>
    intro i
    simp [stampedIds]
  | cons p ps ih =>
    intro i
    refine List.nodup_cons.mpr ⟨?_, ih (i + 1)⟩
    intro hmem
    obtain ⟨k, hk, hrk⟩ := mem_stampedIds ids ps (i + 1) (ids i) hmem
    have : i = k := hinj hrk
    omega

/-- C8.  Every `_send_action` call stamps the freshly drawn id onto the
enqueued envelope, registers the callback under exactly that id, returns
that same id, and mutates nothing but the registry and the queue — in
particular it performs no network write.  Across a session, the uuid4
supply (modelled as an injective supply of non-empty strings, which is
what `str(uuid.uuid4())` provides) makes all returned ids distinct and
non-empty. -/
theorem submit_fresh_id_spec :
    (∀ (s : ClientState) (q : List (Option ActionRequest)) (fresh : String)
        (p : Nat) (cb : Callback), s.request_queue = some q →
      sendAction s fresh p (some cb) =
        some ({ s with
                response_handlers := dinsert s.response_handlers fresh cb
                request_queue :=
                  some (q ++ [some { request_id := fresh, payload := p }]) },
              fresh, [TxEvent.register fresh, TxEvent.enqueue fresh])) ∧
    (∀ (ids : Nat → String) (i : Nat) (ps : List Nat) (s : ClientState)
        (q : List (Option ActionRequest)),
      Function.Injective ids → (∀ n, ids n ≠ "") →
      s.request_queue = some q →
      submitAll ids s i ps =
        some ({ s with request_queue := some (q ++ (stamped ids i ps).map some) },
              stampedIds ids i ps) ∧
      (stampedIds ids i ps).Nodup ∧
      ∀ r ∈ stampedIds ids i ps, r ≠ "") := by
  constructor
  · intro s q fresh p cb hq
    simp [sendAction, hq]
  · intro ids i ps s q hinj hne hq
    refine ⟨submitAll_spec ids ps s q i hq, stampedIds_nodup ids hinj ps i, ?_⟩
    intro r hr
    obtain ⟨k, _, hrk⟩ := mem_stampedIds ids ps i r hr
    rw [hrk]
    exact hne k

/-- Witness for C8: a concrete injective non-empty supply (`"x"` followed
by `n` copies of `"a"`) over two submissions on a fresh client. -/
theorem submit_fresh_id_spec_witness :
    sendAction (connect mkClient) "u0" 5 (some { cid := 1, faults := false }) =
      some ({ connect mkClient with
              response_handlers :=
                dinsert (connect mkClient).response_handlers "u0"
                  { cid := 1, faults := false }
              request_queue :=
                some (([] : List (Option ActionRequest)) ++
                      [some { request_id := "u0", payload := 5 }]) },
            "u0", [TxEvent.register "u0", TxEvent.enqueue "u0"]) ∧
    (submitAll (fun n => String.mk ([Char.ofNat 120] ++ List.replicate n (Char.ofNat 97)))
        (connect mkClient) 0 [5, 6] =
      some ({ connect mkClient with
              request_queue :=
                some (([] : List (Option ActionRequest)) ++
                      (stamped (fun n => String.mk ([Char.ofNat 120] ++
                        List.replicate n (Char.ofNat 97))) 0 [5, 6]).map some) },
            stampedIds (fun n => String.mk ([Char.ofNat 120] ++
              List.replicate n (Char.ofNat 97))) 0 [5, 6]) ∧
      (stampedIds (fun n => String.mk ([Char.ofNat 120] ++
        List.replicate n (Char.ofNat 97))) 0 [5, 6]).Nodup ∧
      ∀ r ∈ stampedIds (fun n => String.mk ([Char.ofNat 120] ++
        List.replicate n (Char.ofNat 97))) 0 [5, 6], r ≠ "") :=
  ⟨submit_fresh_id_spec.1 (connect mkClient) [] "u0" 5 { cid := 1, faults := false } rfl,
   submit_fresh_id_spec.2
     (fun n => String.mk ([Char.ofNat 120] ++ List.replicate n (Char.ofNat 97)))
     0 [5, 6] (connect mkClient) []
     (fun a b hab => by
       have hdata : [Char.ofNat 120] ++ List.replicate a (Char.ofNat 97) =
           [Char.ofNat 120] ++ List.replicate b (Char.ofNat 97) :=
         congrArg String.data hab
       have hlen := congrArg List.length hdata
       simpa using hlen)
     (fun n hn => by
       have hdata : [Char.ofNat 120] ++ List.replicate n (Char.ofNat 97) =
           ([] : List Char) := congrArg String.data hn
       simp at hdata)
     rfl⟩

/-! ## Receive-side lemmas -/

/-- Helper: receive-loop iteration when no callback is registered for the
envelope's `request_id`: only the cache is written. -/
theorem dispatchOne_eq_none (s : ClientState) (r : StreamResponse)
    (hl : dlookup s.response_handlers r.request_id = none) :
    dispatchOne s r =
      ({ s with latest_responses :=
          dinsert s.latest_responses (kindKey r.kind) r.payload },
       [RxEvent.cacheUpdate (kindKey r.kind) r.payload], true) := by
  simp [dispatchOne, hl]

/-- Helper: receive-loop iteration when the registered callback raises:
cache written, callback invoked, entry NOT deleted, iteration faulted. -/
theorem dispatchOne_eq_fault (s : ClientState) (r : StreamResponse)
    (cb : Callback) (hl : dlookup s.response_handlers r.request_id = some cb)
    (hf : cb.faults = true) :
    dispatchOne s r =
      ({ s with latest_responses :=
          dinsert s.latest_responses (kindKey r.kind) r.payload },
       [RxEvent.cacheUpdate (kindKey r.kind) r.payload,
        RxEvent.invoke cb.cid r.request_id r.payload], false) := by
  simp [dispatchOne, hl, hf]

/-- Helper: receive-loop iteration when the registered callback completes
normally: cache written, callback invoked, entry deleted. -/
theorem dispatchOne_eq_invoke (s : ClientState) (r : StreamResponse)
    (cb : Callback) (hl : dlookup s.response_handlers r.request_id = some cb)
    (hf : cb.faults = false) :
    dispatchOne s r =
      ({ s with
         latest_responses :=
           dinsert s.latest_responses (kindKey r.kind) r.payload
         response_handlers := derase s.response_handlers r.request_id },
       [RxEvent.cacheUpdate (kindKey r.kind) r.payload,
        RxEvent.invoke cb.cid r.request_id r.payload], true) := by
  simp [dispatchOne, hl, hf]

/-- Helper: the cache field written by one receive-loop iteration, in every
branch (registered callback or not, faulting or not). -/
theorem dispatchOne_cache (s : ClientState) (r : StreamResponse) :
    (dispatchOne s r).1.latest_responses =
      dinsert s.latest_responses (kindKey r.kind) r.payload := by
  cases hl : dlookup s.response_handlers r.request_id with
  | none => rw [dispatchOne_eq_none s r hl]
  | some cb =>
    cases hf : cb.faults with
    | false => rw [dispatchOne_eq_invoke s r cb hl hf]
    | true => rw [dispatchOne_eq_fault s r cb hl hf]

/-- Helper: a receive-loop iteration never touches the `running` flag. -/
theorem dispatchOne_running (s : ClientState) (r : StreamResponse) :
    (dispatchOne s r).1.running = s.running := by
  cases hl : dlookup s.response_handlers r.request_id with
  | none => rw [dispatchOne_eq_none s r hl]
  | some cb =>
    cases hf : cb.faults with
    | false => rw [dispatchOne_eq_invoke s r cb hl hf]
    | true => rw [dispatchOne_eq_fault s r cb hl hf]

/-- Helper: a receive-loop iteration preserves `handlersOk` (it only ever
deletes registry entries). -/
theorem dispatchOne_handlersOk (s : ClientState) (r : StreamResponse)
    (h : handlersOk s) : handlersOk (dispatchOne s r).1 := by
  cases hl : dlookup s.response_handlers r.request_id with
  | none =>
    rw [dispatchOne_eq_none s r hl]
    exact h
  | some cb =>
    cases hf : cb.faults with
    | false =>
      rw [dispatchOne_eq_invoke s r cb hl hf]
      intro p hp
      exact h p (derase_subset _ _ p hp)
    | true =>
      rw [dispatchOne_eq_fault s r cb hl hf]
      exact h

/-- Helper: with only normally-completing callbacks registered, no
receive-loop iteration faults. -/
theorem dispatchOne_ok (s : ClientState) (r : StreamResponse)
    (h : handlersOk s) : (dispatchOne s r).2.2 = true := by
  cases hl : dlookup s.response_handlers r.request_id with
  | none => rw [dispatchOne_eq_none s r hl]
  | some cb =>
    have hf : cb.faults = false :=
      h (r.request_id, cb) (dlookup_mem _ _ _ hl)
    rw [dispatchOne_eq_invoke s r cb hl hf]

theorem invokeCount_nil (rid : String) : invokeCount [] rid = 0 := rfl

theorem invokeCount_append (evs1 evs2 : List RxEvent) (rid : String) :
    invokeCount (evs1 ++ evs2) rid = invokeCount evs1 rid + invokeCount evs2 rid :=
  List.countP_append _ _ _

theorem invokeCount_cacheUpdate (key : String) (p : Nat) (evs : List RxEvent)
    (rid : String) :
    invokeCount (RxEvent.cacheUpdate key p :: evs) rid = invokeCount evs rid := by
  simp [invokeCount, List.countP_cons]

theorem invokeCount_invoke_self (c : Nat) (p : Nat) (evs : List RxEvent)
    (rid : String) :
    invokeCount (RxEvent.invoke c rid p :: evs) rid = invokeCount evs rid + 1 := by
  simp [invokeCount, List.countP_cons]

theorem invokeCount_invoke_ne (c : Nat) (r : String) (p : Nat)
    (evs : List RxEvent) (rid : String) (h : r ≠ rid) :
    invokeCount (RxEvent.invoke c r p :: evs) rid = invokeCount evs rid := by
  simp [invokeCount, List.countP_cons, h]

/-- Helper: once no entry is registered under `rid`, the receive loop never
invokes a callback for `rid` and never re-creates the entry — the loop
only deletes registrations, it never adds them. -/
theorem processInbound_no_invoke (rid : String) :
    ∀ (ms : List StreamResponse) (s : ClientState),
      dlookup s.response_handlers rid = none →
      invokeCount (processInbound s ms).2 rid = 0 ∧
      dlookup (processInbound s ms).1.response_handlers rid = none := by
  intro ms
  induction ms with
  | nil =>
    intro s h
    exact ⟨rfl, h⟩
  | cons m rest ih =>
    intro s h
    cases hrun : s.running with
    | false =>
      simp only [processInbound, hrun, Bool.false_eq_true, if_false]
      exact ⟨rfl, h⟩
    | true =>
      cases hl : dlookup s.response_handlers m.request_id with
      | none =>
        have step := dispatchOne_eq_none s m hl
        have ihs := ih { s with latest_responses := (dinsert s.latest_responses (kindKey m.kind) m.payload) } h
        simp only [processInbound, hrun, if_true, step]
        simpa [invokeCount_append, invokeCount_cacheUpdate, hrun] using ihs
      | some cb =>
        cases hf : cb.faults with
        | false =>
          have hne : ¬m.request_id = rid := by
            intro hcontra
            rw [hcontra, h] at hl
            exact Option.noConfusion hl
          have step := dispatchOne_eq_invoke s m cb hl hf
          have hlook : dlookup (derase s.response_handlers m.request_id) rid = none := by
            rw [dlookup_derase_ne s.response_handlers m.request_id rid
              (fun hc => hne hc.symm)]
            exact h
          have ihs := ih { s with latest_responses := (dinsert s.latest_responses (kindKey m.kind) m.payload), response_handlers := (derase s.response_handlers m.request_id) } hlook
          simp only [processInbound, hrun, if_true, step]
          simpa [invokeCount_append, invokeCount_cacheUpdate,
            invokeCount_invoke_ne _ _ _ _ _ hne, hrun] using ihs
        | true =>
          have hne : ¬m.request_id = rid := by
            intro hcontra
            rw [hcontra, h] at hl
            exact Option.noConfusion hl
          have step := dispatchOne_eq_fault s m cb hl hf
          simp only [processInbound, hrun, if_true, step]
          refine ⟨?_, ?_⟩
          · simp [invokeCount_cacheUpdate, invokeCount_invoke_ne _ _ _ _ _ hne,
              invokeCount_nil]
          · simpa using h

/-- Helper: after the receive loop processes a delivery sequence (all
registered callbacks completing normally), the cache entry under any key
is the fold of the arriving payloads of that kind over the initial entry
— last write wins. -/
theorem processInbound_cache (key : String) :
    ∀ (ms : List StreamResponse) (s : ClientState),
      s.running = true → handlersOk s →
      dlookup (processInbound s ms).1.latest_responses key =
        ms.foldl
          (fun acc m => if kindKey m.kind = key then some m.payload else acc)
          (dlookup s.latest_responses key) := by
  intro ms
  induction ms with
  | nil =>
    intro s h1 h2
    rfl
  | cons m rest ih =>
    intro s h1 h2
    have hok := dispatchOne_ok s m h2
    have hrun2 : (dispatchOne s m).1.running = true := by
      rw [dispatchOne_running]
      exact h1
    have hok2 := dispatchOne_handlersOk s m h2
    have hinit : dlookup (dispatchOne s m).1.latest_responses key =
        (if kindKey m.kind = key then some m.payload
         else dlookup s.latest_responses key) := by
      rw [dispatchOne_cache]
      rfl
    simp only [processInbound, h1, if_true, hok]
    rw [List.foldl_cons, ← hinit]
    exact ih (dispatchOne s m).1 hrun2 hok2

/-- Helper: the cache fold over an arbitrary initial entry equals the last
payload of that kind when one arrived, and the initial entry otherwise. -/
theorem lastPayload_or (key : String) (ms : List StreamResponse) :
    ∀ o : Option Nat,
      ms.foldl
        (fun acc m => if kindKey m.kind = key then some m.payload else acc) o =
        Option.or (lastPayload key ms) o := by
  induction ms with
  | nil =>
    intro o
    rfl
  | cons m rest ih =>
    intro o
    simp only [lastPayload, List.foldl_cons]
    by_cases hk : kindKey m.kind = key
    · simp only [hk, if_true]
      rw [ih (some m.payload)]
      rw [Option.or_assoc, Option.or_some]
    · simp only [hk, if_false]
      rw [ih o, show rest.foldl
          (fun acc m => if kindKey m.kind = key then some m.payload else acc)
          none = lastPayload key rest from rfl]

/-! ## Claim theorems: receive side -/

/-- Helper: with the session running and every registered callback
completing normally, the first envelope matching a registered
`request_id` invokes the callback and the `del` on line 134 removes the
entry before the next message is read, so over the whole delivery
sequence the callback fires exactly once and the entry is gone. -/
theorem processInbound_fires_once :
    ∀ (ms : List StreamResponse) (s : ClientState) (rid : String) (cb : Callback),
      s.running = true → handlersOk s →
      dlookup s.response_handlers rid = some cb →
      (∃ m ∈ ms, m.request_id = rid) →
      invokeCount (processInbound s ms).2 rid = 1 ∧
      dlookup (processInbound s ms).1.response_handlers rid = none := by
  intro ms
  induction ms with
  | nil =>
    intro s rid cb h1 h2 h3 hex
    obtain ⟨m, hm, _⟩ := hex
    exact absurd hm (List.not_mem_nil m)
  | cons m rest ih =>
    intro s rid cb h1 h2 h3 hex
    by_cases hm : m.request_id = rid
    · have hf : cb.faults = false :=
        h2 (rid, cb) (dlookup_mem s.response_handlers rid cb h3)
      have hl : dlookup s.response_handlers m.request_id = some cb := by
        rw [hm]
        exact h3
      have step := dispatchOne_eq_invoke s m cb hl hf
      have hnone : dlookup (derase s.response_handlers m.request_id) rid = none := by
        rw [hm]
        exact dlookup_derase_self s.response_handlers rid
      have hni := processInbound_no_invoke rid rest { s with latest_responses := (dinsert s.latest_responses (kindKey m.kind) m.payload), response_handlers := (derase s.response_handlers m.request_id) } hnone
      simp only [processInbound, h1, if_true, step]
      refine ⟨?_, ?_⟩
      · simpa [invokeCount_append, invokeCount_cacheUpdate, hm,
          invokeCount_invoke_self, h1] using hni.1
      · simpa [h1] using hni.2
    · obtain ⟨m2, hm2, hrid2⟩ := hex
      have hm2rest : m2 ∈ rest := by
        cases List.mem_cons.mp hm2 with
        | inl he =>
          exact absurd (he ▸ hrid2) hm
        | inr hr => exact hr
      have hexrest : ∃ mm ∈ rest, mm.request_id = rid := ⟨m2, hm2rest, hrid2⟩
      cases hl : dlookup s.response_handlers m.request_id with
      | none =>
        have step := dispatchOne_eq_none s m hl
        have ihs := ih { s with latest_responses := (dinsert s.latest_responses (kindKey m.kind) m.payload) } rid cb h1 h2 h3 hexrest
        simp only [processInbound, h1, if_true, step]
        refine ⟨?_, ?_⟩
        · simpa [invokeCount_append, invokeCount_cacheUpdate, h1] using ihs.1
        · simpa [h1] using ihs.2
      | some cb2 =>
        have hf2 : cb2.faults = false :=
          h2 (m.request_id, cb2) (dlookup_mem _ _ _ hl)
        have step := dispatchOne_eq_invoke s m cb2 hl hf2
        have h3b : dlookup (derase s.response_handlers m.request_id) rid = some cb := by
          rw [dlookup_derase_ne _ _ _ (fun hc => hm hc.symm)]
          exact h3
        have h2b : handlersOk { s with latest_responses := (dinsert s.latest_responses (kindKey m.kind) m.payload), response_handlers := (derase s.response_handlers m.request_id) } := by
          intro p hp
          exact h2 p (derase_subset _ _ p hp)
        have ihs := ih { s with latest_responses := (dinsert s.latest_responses (kindKey m.kind) m.payload), response_handlers := (derase s.response_handlers m.request_id) } rid cb h1 h2b h3b hexrest
        simp only [processInbound, h1, if_true, step]
        refine ⟨?_, ?_⟩
        · simpa [invokeCount_append, invokeCount_cacheUpdate,
            invokeCount_invoke_ne _ _ _ _ _ hm, h1] using ihs.1
        · simpa [h1] using ihs.2



/-- Helper: over any delivery sequence, from any state — faulting
callbacks included — the receive loop invokes a callback for a given
`request_id` at most once: a normal completion deletes the entry before
the next read, and a raising callback `break`s the loop, so no second
invocation can follow either way. -/
theorem processInbound_at_most_once :
    ∀ (ms : List StreamResponse) (s : ClientState) (rid : String),
      invokeCount (processInbound s ms).2 rid ≤ 1 := by
  intro ms
  induction ms with
  | nil =>
    intro s rid
    simp [processInbound, invokeCount]
  | cons m rest ih =>
    intro s rid
    cases hrun : s.running with
    | false =>
      simp only [processInbound, hrun, Bool.false_eq_true, if_false]
      simp [invokeCount]
    | true =>
      cases hl : dlookup s.response_handlers m.request_id with
      | none =>
        have step := dispatchOne_eq_none s m hl
        have ihs := ih { s with latest_responses := (dinsert s.latest_responses (kindKey m.kind) m.payload) } rid
        simp only [processInbound, hrun, if_true, step]
        simpa [invokeCount_append, invokeCount_cacheUpdate, hrun] using ihs
      | some cb =>
        cases hf : cb.faults with
        | true =>
          have step := dispatchOne_eq_fault s m cb hl hf
          simp only [processInbound, hrun, if_true, step]
          by_cases hmr : m.request_id = rid
          · simp [invokeCount_cacheUpdate, hmr, invokeCount_invoke_self,
              invokeCount_nil]
          · simp [invokeCount_cacheUpdate,
              invokeCount_invoke_ne _ _ _ _ _ hmr, invokeCount_nil]
        | false =>
          have step := dispatchOne_eq_invoke s m cb hl hf
          simp only [processInbound, hrun, if_true, step]
          by_cases hmr : m.request_id = rid
          · have hnone : dlookup (derase s.response_handlers m.request_id) rid = none := by
              rw [hmr]
              exact dlookup_derase_self _ _
            have h0 := (processInbound_no_invoke rid rest { s with latest_responses := (dinsert s.latest_responses (kindKey m.kind) m.payload), response_handlers := (derase s.response_handlers m.request_id) } hnone).1
            simp only [hrun, hmr] at h0
            simp [invokeCount_append, invokeCount_cacheUpdate, hmr,
              invokeCount_invoke_self, h0]
          · have ihs := ih { s with latest_responses := (dinsert s.latest_responses (kindKey m.kind) m.payload), response_handlers := (derase s.response_handlers m.request_id) } rid
            simpa [invokeCount_append, invokeCount_cacheUpdate,
              invokeCount_invoke_ne _ _ _ _ _ hmr, hrun] using ihs

/-- Counterexample to C2.  A raising callback registered under `"abc"` is
invoked by the matching envelope, but the `del` on line 134 is never
reached: after the dispatch the entry is still registered, refuting
"that callback is invoked exactly once and the entry is removed" —
invocation and removal are two separate steps, and a fault between them
leaves the entry behind. -/
theorem callback_entry_not_removed_counterexample :
    invokeCount (processInbound
      { connect mkClient with
        response_handlers := [("abc", { cid := 0, faults := true })] }
      [{ request_id := "abc", kind := RespKind.image, payload := 1 }]).2 "abc" = 1 ∧
    dlookup (processInbound
      { connect mkClient with
        response_handlers := [("abc", { cid := 0, faults := true })] }
      [{ request_id := "abc", kind := RespKind.image, payload := 1 }]).1.response_handlers
      "abc" = some { cid := 0, faults := true } := by
  decide

/-- C2 as amended.  For every inbound envelope whose `request_id` matches
a registered entry, the callback is invoked at most once over any
delivery sequence — a second envelope with the same `request_id` never
re-invokes it, in any schedule.  When the invocation completes normally
the entry is also removed in the same iteration (invocation, then the
`del` of line 134, before the next read), giving exactly one invocation
and an empty registry slot; when the invocation raises, the `del` is
skipped and the entry stays registered, but the loop `break`s, so no
re-invocation occurs either. -/
theorem callback_dispatch_once :
    (∀ (s : ClientState) (ms : List StreamResponse) (rid : String),
      invokeCount (processInbound s ms).2 rid ≤ 1) ∧
    (∀ (ms : List StreamResponse) (s : ClientState) (rid : String) (cb : Callback),
      s.running = true → handlersOk s →
      dlookup s.response_handlers rid = some cb →
      (∃ m ∈ ms, m.request_id = rid) →
      invokeCount (processInbound s ms).2 rid = 1 ∧
      dlookup (processInbound s ms).1.response_handlers rid = none) :=
  ⟨fun s ms rid => processInbound_at_most_once ms s rid,
   processInbound_fires_once⟩

/-- Witness for the amended C2: the at-most-once bound at a faulting
callback fed two matching envelopes, and the exactly-once-and-removed
case at a normal callback fed two matching envelopes. -/
theorem callback_dispatch_once_witness :
    invokeCount (processInbound
      { connect mkClient with
        response_handlers := [("abc", { cid := 0, faults := true })] }
      [{ request_id := "abc", kind := RespKind.image, payload := 1 },
       { request_id := "abc", kind := RespKind.image, payload := 2 }]).2 "abc" ≤ 1 ∧
    (invokeCount (processInbound
      { connect mkClient with
        response_handlers := [("abc", { cid := 0, faults := false })] }
      [{ request_id := "abc", kind := RespKind.image, payload := 1 },
       { request_id := "abc", kind := RespKind.image, payload := 2 }]).2 "abc" = 1 ∧
     dlookup (processInbound
      { connect mkClient with
        response_handlers := [("abc", { cid := 0, faults := false })] }
      [{ request_id := "abc", kind := RespKind.image, payload := 1 },
       { request_id := "abc", kind := RespKind.image, payload := 2 }]).1.response_handlers
      "abc" = none) :=
  ⟨callback_dispatch_once.1
      { connect mkClient with
        response_handlers := [("abc", { cid := 0, faults := true })] }
      [{ request_id := "abc", kind := RespKind.image, payload := 1 },
       { request_id := "abc", kind := RespKind.image, payload := 2 }] "abc",
   callback_dispatch_once.2
      [{ request_id := "abc", kind := RespKind.image, payload := 1 },
       { request_id := "abc", kind := RespKind.image, payload := 2 }]
      { connect mkClient with
        response_handlers := [("abc", { cid := 0, faults := false })] }
      "abc" { cid := 0, faults := false } rfl (by decide) (by decide) (by decide)⟩

/-- Counterexample to C3.  A callback registered under `"abc"` raises; the
receive loop processes the faulting envelope and then, although the
exception is caught by the loop-body `except`, it `break`s (line 138):
the second envelope is never processed — its cache entry is missing —
and the loop terminates with `running = False`. -/
theorem callback_fault_counterexample :
    dlookup (processInbound
      { connect mkClient with
        response_handlers := [("abc", { cid := 0, faults := true })] }
      [{ request_id := "abc", kind := RespKind.image, payload := 1 },
       { request_id := "x", kind := RespKind.command, payload := 7 }]).1.latest_responses
      "command" = none ∧
    (processInbound
      { connect mkClient with
        response_handlers := [("abc", { cid := 0, faults := true })] }
      [{ request_id := "abc", kind := RespKind.image, payload := 1 },
       { request_id := "x", kind := RespKind.command, payload := 7 }]).1.running = false ∧
    invokeCount (processInbound
      { connect mkClient with
        response_handlers := [("abc", { cid := 0, faults := true })] }
      [{ request_id := "abc", kind := RespKind.image, payload := 1 },
       { request_id := "x", kind := RespKind.command, payload := 7 }]).2 "abc" = 1 := by
  decide

/-- C3 as amended.  A raising callback does not crash the program — the
fault is caught by the receive-loop body's `except` — but the handler
then `break`s instead of continuing: the loop ends with `running` set
`False` by the `finally`, the remaining inbound envelopes are not
processed (the trace stops at the faulting envelope's two events), and
the faulting callback's registry entry is left in place (the `del` was
never reached). -/
theorem callback_fault_stops_loop (s : ClientState) (m : StreamResponse)
    (rest : List StreamResponse) (cb : Callback)
    (hrun : s.running = true)
    (hcb : dlookup s.response_handlers m.request_id = some cb)
    (hf : cb.faults = true) :
    (processInbound s (m :: rest)).1.running = false ∧
    (processInbound s (m :: rest)).2 =
      [RxEvent.cacheUpdate (kindKey m.kind) m.payload,
       RxEvent.invoke cb.cid m.request_id m.payload] ∧
    (processInbound s (m :: rest)).1.latest_responses =
      dinsert s.latest_responses (kindKey m.kind) m.payload ∧
    (processInbound s (m :: rest)).1.response_handlers = s.response_handlers := by
  have step := dispatchOne_eq_fault s m cb hcb hf
  simp only [processInbound, hrun, if_true, step]
  simp

/-- Witness for the amended C3 at a concrete faulting callback. -/
theorem callback_fault_stops_loop_witness :
    (processInbound
      { connect mkClient with
        response_handlers := [("abc", { cid := 0, faults := true })] }
      [{ request_id := "abc", kind := RespKind.image, payload := 1 },
       { request_id := "x", kind := RespKind.command, payload := 7 }]).1.running = false ∧
    (processInbound
      { connect mkClient with
        response_handlers := [("abc", { cid := 0, faults := true })] }
      [{ request_id := "abc", kind := RespKind.image, payload := 1 },
       { request_id := "x", kind := RespKind.command, payload := 7 }]).2 =
      [RxEvent.cacheUpdate (kindKey RespKind.image) 1,
       RxEvent.invoke 0 "abc" 1] ∧
    (processInbound
      { connect mkClient with
        response_handlers := [("abc", { cid := 0, faults := true })] }
      [{ request_id := "abc", kind := RespKind.image, payload := 1 },
       { request_id := "x", kind := RespKind.command, payload := 7 }]).1.latest_responses =
      dinsert (connect mkClient).latest_responses (kindKey RespKind.image) 1 ∧
    (processInbound
      { connect mkClient with
        response_handlers := [("abc", { cid := 0, faults := true })] }
      [{ request_id := "abc", kind := RespKind.image, payload := 1 },
       { request_id := "x", kind := RespKind.command, payload := 7 }]).1.response_handlers =
      [("abc", { cid := 0, faults := true })] :=
  callback_fault_stops_loop
    { connect mkClient with
      response_handlers := [("abc", { cid := 0, faults := true })] }
    { request_id := "abc", kind := RespKind.image, payload := 1 }
    [{ request_id := "x", kind := RespKind.command, payload := 7 }]
    { cid := 0, faults := true } rfl (by decide) rfl

/-- C6.  Every receive-loop iteration overwrites the cache entry for the
envelope's kind (last-write-wins), it does so whatever the registry
contains — the resulting cache does not depend on `response_handlers` —
and the cache update is the first emitted event, preceding any callback
invocation. -/
theorem cache_update_unconditional_first (s : ClientState) (r : StreamResponse) :
    (dispatchOne s r).1.latest_responses =
      dinsert s.latest_responses (kindKey r.kind) r.payload ∧
    dlookup (dispatchOne s r).1.latest_responses (kindKey r.kind) = some r.payload ∧
    (∀ hs : List (String × Callback),
      (dispatchOne { s with response_handlers := hs } r).1.latest_responses =
        (dispatchOne s r).1.latest_responses) ∧
    ∃ t, (dispatchOne s r).2.1 =
        RxEvent.cacheUpdate (kindKey r.kind) r.payload :: t ∧
      ∀ e ∈ t, ∃ c rid p, e = RxEvent.invoke c rid p := by
  refine ⟨dispatchOne_cache s r, ?_, ?_, ?_⟩
  · rw [dispatchOne_cache]
    exact dlookup_dinsert_self _ _ _
  · intro hs
    rw [dispatchOne_cache, dispatchOne_cache]
  · cases hl : dlookup s.response_handlers r.request_id with
    | none =>
      rw [dispatchOne_eq_none s r hl]
      refine ⟨[], rfl, ?_⟩
      intro e he
      exact absurd he (List.not_mem_nil e)
    | some cb =>
      cases hf : cb.faults with
      | false =>
        rw [dispatchOne_eq_invoke s r cb hl hf]
        refine ⟨[RxEvent.invoke cb.cid r.request_id r.payload], rfl, ?_⟩
        intro e he
        rw [List.mem_singleton] at he
        exact ⟨cb.cid, r.request_id, r.payload, he⟩
      | true =>
        rw [dispatchOne_eq_fault s r cb hl hf]
        refine ⟨[RxEvent.invoke cb.cid r.request_id r.payload], rfl, ?_⟩
        intro e he
        rw [List.mem_singleton] at he
        exact ⟨cb.cid, r.request_id, r.payload, he⟩

/-- C7.  `get_latest_frame` returns `none` on a freshly connected client
(no image response has arrived); after the receive loop processes a
delivery sequence it returns the payload of the most recently received
image-kind envelope (falling back to the previous snapshot when the
sequence carries none); and `disconnect` leaves the cache untouched, so
the last snapshot observed before closing is still returned. -/
theorem get_latest_frame_spec :
    getLatestFrame (connect mkClient) = none ∧
    (∀ (s : ClientState) (ms : List StreamResponse),
      s.running = true → handlersOk s →
      getLatestFrame (processInbound s ms).1 =
        Option.or (lastPayload "image" ms) (getLatestFrame s)) ∧
    (∀ s : ClientState, getLatestFrame (disconnect s) = getLatestFrame s) := by
  refine ⟨rfl, ?_, ?_⟩
  · intro s ms h1 h2
    unfold getLatestFrame
    rw [processInbound_cache "image" ms s h1 h2,
      lastPayload_or "image" ms (dlookup s.latest_responses "image")]
  · intro s
    cases hq : s.request_queue <;> by_cases hc : s.channel_created <;>
      simp [getLatestFrame, disconnect, hq, hc]

/-- Witness for C7: two image envelopes arrive; the second's payload wins. -/
theorem get_latest_frame_spec_witness :
    getLatestFrame (processInbound (connect mkClient)
      [{ request_id := "a", kind := RespKind.image, payload := 5 },
       { request_id := "b", kind := RespKind.image, payload := 9 }]).1 =
      Option.or (lastPayload "image"
        [{ request_id := "a", kind := RespKind.image, payload := 5 },
         { request_id := "b", kind := RespKind.image, payload := 9 }])
        (getLatestFrame (connect mkClient)) :=
  get_latest_frame_spec.2.1 (connect mkClient)
    [{ request_id := "a", kind := RespKind.image, payload := 5 },
     { request_id := "b", kind := RespKind.image, payload := 9 }]
    rfl (by decide)
